import Mathlib

/-!
Verification of the workflow-linter decode layer.

The repository decodes CI workflow YAML into a typed model using serde
derive implementations (`src/workflow.rs`, with an older draft of the same
model in `src/main.rs`).  We embed the document tree (`serde_yaml::Value`)
as an inductive `Yaml` type and translate each derived `Deserialize` /
`Serialize` implementation into an explicit Lean function, following the
serde derive semantics:

* a struct deserializes from a mapping; each field is fetched by its
  kebab-cased (or `rename`d) key; unknown keys are ignored (serde default);
* an `Option<T>` field: missing key or explicit `null` gives `none`,
  anything else is decoded by `T`'s deserializer and wrapped in `some`;
* a `#[serde(default)]` field: missing key gives the `Default` value, a
  present value (even `null`) is decoded by the field type's deserializer;
* an `#[serde(untagged)]` enum tries its variants in declaration order and
  commits to the first variant whose deserializer succeeds on the node;
* `Vec<T>` deserializes from a sequence node, elementwise in order;
* `HashMap<String, T>` deserializes from a mapping node; we model the map
  as an association list preserving document order;
* `serde_yaml::Value` deserializes from any node, as that node.

Serialization mirrors this: a struct serializes every field in declaration
order (`None` becomes `null`), an untagged enum serializes its payload.

`workflow.rs` imports `crate::custom_types::OneOrMany`, whose source file
is not part of the repository snapshot; its behaviour is modelled from the
spec where indicated below.
-/

namespace WorkflowLinter

/-- The untyped document tree (`serde_yaml::Value`): scalars, sequences and
string-keyed mappings. -/
inductive Yaml where
  | str (s : String)
  | int (n : Int)
  | bool (b : Bool)
  | null
  | seq (xs : List Yaml)
  | map (kvs : List (String × Yaml))

/-- First-match lookup of a key in a mapping node's entry list, as serde's
struct visitor fetches fields from a map. -/
def Yaml.lookup : List (String × Yaml) → String → Option Yaml
  | [], _ => none
  | (k, v) :: rest, key => if k = key then some v else Yaml.lookup rest key

/-- Whether a node is the `null` scalar. -/
def Yaml.isNull : Yaml → Bool
  | .null => true
  | _ => false

/-- Whether a node is a sequence. -/
def Yaml.isSeq : Yaml → Bool
  | .seq _ => true
  | _ => false

/-- `String`'s deserializer: accepts exactly string scalars. -/
def decodeString : Yaml → Option String
  | .str s => some s
  | _ => none

/-- `i32`'s deserializer (ranges are irrelevant to the claims, so `Int`). -/
def decodeInt : Yaml → Option Int
  | .int n => some n
  | _ => none

/-- `bool`'s deserializer. -/
def decodeBool : Yaml → Option Bool
  | .bool b => some b
  | _ => none

/-- `serde_yaml::Value`'s deserializer: accepts any node unchanged. -/
def decodeValue (v : Yaml) : Option Yaml := some v

/-- Decode every element of a sequence in order, failing fast (the body of
`Vec<T>`'s deserializer). -/
def decodeEach (d : Yaml → Option α) : List Yaml → Option (List α)
  | [] => some []
  | x :: xs => do
      let a ← d x
      let as ← decodeEach d xs
      some (a :: as)

/-- Decode every value of a mapping in order, failing fast (the body of
`HashMap<String, T>`'s deserializer; the map is modelled as an association
list in document order). -/
def decodeEntries (d : Yaml → Option α) :
    List (String × Yaml) → Option (List (String × α))
  | [] => some []
  | (k, v) :: rest => do
      let a ← d v
      let as ← decodeEntries d rest
      some ((k, a) :: as)

/-- `Vec<T>`'s deserializer: a sequence node, elementwise in order. -/
def decodeList (d : Yaml → Option α) : Yaml → Option (List α)
  | .seq xs => decodeEach d xs
  | _ => none

/-- `HashMap<String, String>`'s deserializer (document order kept). -/
def decodeStringMap : Yaml → Option (List (String × String))
  | .map kvs => decodeEntries decodeString kvs
  | _ => none

/-- A required struct field: the key must be present and decode. -/
def reqField (kvs : List (String × Yaml)) (key : String) (d : Yaml → Option α) :
    Option α :=
  (Yaml.lookup kvs key).bind d

/-- Decode an `Option<T>` struct field from the looked-up entry: absent or
`null` gives `none`, otherwise `T`'s deserializer wrapped in `some`. -/
def decodeOptField (d : Yaml → Option α) : Option Yaml → Option (Option α)
  | none => some none
  | some v => if v.isNull then some none else (d v).map some

/-- An `Option<T>` struct field. -/
def optField (kvs : List (String × Yaml)) (key : String) (d : Yaml → Option α) :
    Option (Option α) :=
  decodeOptField d (Yaml.lookup kvs key)

/-- A `#[serde(default)]` struct field: absent gives the default, a present
value is decoded by the field type's deserializer. -/
def defField (kvs : List (String × Yaml)) (key : String) (d : Yaml → Option α)
    (dflt : α) : Option α :=
  match Yaml.lookup kvs key with
  | none => some dflt
  | some v => d v

/-- Serialize an `Option<T>` field value (`None` becomes `null`). -/
def serializeOpt (f : α → Yaml) : Option α → Yaml
  | none => .null
  | some x => f x

/-- Serialize a `HashMap<String, String>`. -/
def serializeStringMap (m : List (String × String)) : Yaml :=
  .map (m.map (fun kv => (kv.1, Yaml.str kv.2)))

/-- `CronSchedule` (workflow.rs lines 16-21): a struct with the single
required field `cron`, an unvalidated string (the source carries a
`TODO: validate cron string` comment and applies no check). -/
structure CronSchedule where
  cron : String
deriving DecidableEq

/-- `type Schedule = Vec<CronSchedule>` (workflow.rs line 14). -/
abbrev Schedule := List CronSchedule

def decodeCronSchedule : Yaml → Option CronSchedule
  | .map kvs => (reqField kvs "cron" decodeString).map (fun c => { cron := c })
  | _ => none

def serializeCronSchedule (c : CronSchedule) : Yaml :=
  .map [("cron", Yaml.str c.cron)]

def decodeSchedule : Yaml → Option Schedule :=
  decodeList decodeCronSchedule

def serializeSchedule (s : Schedule) : Yaml :=
  .seq (s.map serializeCronSchedule)

/-- `Event` (workflow.rs lines 25-57): an `#[serde(untagged)]` enum whose 29
variants each carry an opaque `serde_yaml::Value` payload. -/
inductive Event where
  | push (v : Yaml)
  | pullRequest (v : Yaml)
  | workflowDispatch (v : Yaml)
  | repositoryDispatch (v : Yaml)
  | checkRun (v : Yaml)
  | checkSuite (v : Yaml)
  | create (v : Yaml)
  | delete (v : Yaml)
  | deployment (v : Yaml)
  | deploymentStatus (v : Yaml)
  | fork (v : Yaml)
  | gollum (v : Yaml)
  | issueComment (v : Yaml)
  | issues (v : Yaml)
  | label (v : Yaml)
  | milestone (v : Yaml)
  | pageBuild (v : Yaml)
  | project (v : Yaml)
  | projectCard (v : Yaml)
  | projectColumn (v : Yaml)
  | public (v : Yaml)
  | pullRequestReview (v : Yaml)
  | pullRequestReviewComment (v : Yaml)
  | pullRequestTarget (v : Yaml)
  | registryPackage (v : Yaml)
  | release (v : Yaml)
  | status (v : Yaml)
  | watch (v : Yaml)
  | workflowRun (v : Yaml)

/-- `Event`'s untagged deserializer: variants are tried in declaration
order; every variant payload is `Value`, whose deserializer accepts any
node, so the first variant (`Push`) always matches. -/
def decodeEvent (v : Yaml) : Option Event :=
  ((decodeValue v).map Event.push) <|>
  ((decodeValue v).map Event.pullRequest) <|>
  ((decodeValue v).map Event.workflowDispatch) <|>
  ((decodeValue v).map Event.repositoryDispatch) <|>
  ((decodeValue v).map Event.checkRun) <|>
  ((decodeValue v).map Event.checkSuite) <|>
  ((decodeValue v).map Event.create) <|>
  ((decodeValue v).map Event.delete) <|>
  ((decodeValue v).map Event.deployment) <|>
  ((decodeValue v).map Event.deploymentStatus) <|>
  ((decodeValue v).map Event.fork) <|>
  ((decodeValue v).map Event.gollum) <|>
  ((decodeValue v).map Event.issueComment) <|>
  ((decodeValue v).map Event.issues) <|>
  ((decodeValue v).map Event.label) <|>
  ((decodeValue v).map Event.milestone) <|>
  ((decodeValue v).map Event.pageBuild) <|>
  ((decodeValue v).map Event.project) <|>
  ((decodeValue v).map Event.projectCard) <|>
  ((decodeValue v).map Event.projectColumn) <|>
  ((decodeValue v).map Event.public) <|>
  ((decodeValue v).map Event.pullRequestReview) <|>
  ((decodeValue v).map Event.pullRequestReviewComment) <|>
  ((decodeValue v).map Event.pullRequestTarget) <|>
  ((decodeValue v).map Event.registryPackage) <|>
  ((decodeValue v).map Event.release) <|>
  ((decodeValue v).map Event.status) <|>
  ((decodeValue v).map Event.watch) <|>
  ((decodeValue v).map Event.workflowRun)

/-- The payload of an `Event`; an untagged enum serializes as its payload. -/
def Event.payload : Event → Yaml
  | .push v => v
  | .pullRequest v => v
  | .workflowDispatch v => v
  | .repositoryDispatch v => v
  | .checkRun v => v
  | .checkSuite v => v
  | .create v => v
  | .delete v => v
  | .deployment v => v
  | .deploymentStatus v => v
  | .fork v => v
  | .gollum v => v
  | .issueComment v => v
  | .issues v => v
  | .label v => v
  | .milestone v => v
  | .pageBuild v => v
  | .project v => v
  | .projectCard v => v
  | .projectColumn v => v
  | .public v => v
  | .pullRequestReview v => v
  | .pullRequestReviewComment v => v
  | .pullRequestTarget v => v
  | .registryPackage v => v
  | .release v => v
  | .status v => v
  | .watch v => v
  | .workflowRun v => v

def serializeEvent (e : Event) : Yaml := e.payload

/-- `OneOrMany<T>`.  The constructors and `into_vec` are from the draft in
main.rs (lines 9-21).  The deserializer used by workflow.rs lives in
`crate::custom_types`, which is absent from the repository snapshot. -/
inductive OneOrMany (α : Type _) where
  | one (x : α)
  | many (xs : List α)
deriving DecidableEq

/-- `OneOrMany::into_vec` (main.rs lines 14-21). -/
def OneOrMany.into_vec : OneOrMany α → List α
  | .one i => [i]
  | .many l => l

/-- Modelled from the spec: the deserializer of `crate::custom_types::
OneOrMany`, whose source file is not in the repository snapshot.  Spec
§4.1 (Shape Normalizer): a sequence node yields its elements in order,
each independently decoded as `T`; a scalar or single-object node yields a
one-element result. -/
def decodeOneOrMany (d : Yaml → Option α) : Yaml → Option (OneOrMany α)
  | .seq xs => (decodeEach d xs).map OneOrMany.many
  | v => (d v).map OneOrMany.one

/-- Modelled from the spec: serialization of `custom_types::OneOrMany`,
inverse of the shape rule of §4.1 and §8 (one-or-many equivalence): `One`
serializes as the single item, `Many` as the sequence of items. -/
def serializeOneOrMany (f : α → Yaml) : OneOrMany α → Yaml
  | .one x => f x
  | .many xs => .seq (xs.map f)

/-- `Trigger` (workflow.rs lines 59-66): an `#[serde(untagged)]` enum with
variants `Events(OneOrMany<Event>)` then `Schedule(Schedule)`, in that
declaration order. -/
inductive Trigger where
  | events (e : OneOrMany Event)
  | schedule (s : Schedule)

/-- `Trigger`'s untagged deserializer: `Events` is tried before
`Schedule`, per declaration order. -/
def decodeTrigger (v : Yaml) : Option Trigger :=
  ((decodeOneOrMany decodeEvent v).map Trigger.events) <|>
  ((decodeSchedule v).map Trigger.schedule)

def serializeTrigger : Trigger → Yaml
  | .events e => serializeOneOrMany serializeEvent e
  | .schedule s => serializeSchedule s

/-- `type Env = HashMap<String, String>` (workflow.rs line 262), modelled
as an association list in document order. -/
abbrev Env := List (String × String)

/-- `DefaultSettings` (workflow.rs lines 68-73). -/
structure DefaultSettings where
  shell : Option String
  working_directory : Option String
deriving DecidableEq

def decodeDefaultSettings : Yaml → Option DefaultSettings
  | .map kvs => do
      let shell ← optField kvs "shell" decodeString
      let wd ← optField kvs "working-directory" decodeString
      some { shell := shell, working_directory := wd }
  | _ => none

def serializeDefaultSettings (d : DefaultSettings) : Yaml :=
  .map [("shell", serializeOpt Yaml.str d.shell),
        ("working-directory", serializeOpt Yaml.str d.working_directory)]

/-- `Defaults` (workflow.rs lines 77-81). -/
structure Defaults where
  run : DefaultSettings
deriving DecidableEq

def decodeDefaults : Yaml → Option Defaults
  | .map kvs => (reqField kvs "run" decodeDefaultSettings).map (fun r => { run := r })
  | _ => none

def serializeDefaults (d : Defaults) : Yaml :=
  .map [("run", serializeDefaultSettings d.run)]

/-- `Environment` (workflow.rs lines 85-90). -/
structure Environment where
  name : String
  url : Option String
deriving DecidableEq

def decodeEnvironment : Yaml → Option Environment
  | .map kvs => do
      let name ← reqField kvs "name" decodeString
      let url ← optField kvs "url" decodeString
      some { name := name, url := url }
  | _ => none

def serializeEnvironment (e : Environment) : Yaml :=
  .map [("name", Yaml.str e.name), ("url", serializeOpt Yaml.str e.url)]

/-- `Strategy` (workflow.rs lines 95-101); `type Matrix = Value`. -/
structure Strategy where
  matrix : Option Yaml
  fail_fast : Option Bool
  max_parallel : Option Int

def decodeStrategy : Yaml → Option Strategy
  | .map kvs => do
      let m ← optField kvs "matrix" decodeValue
      let ff ← optField kvs "fail-fast" decodeBool
      let mp ← optField kvs "max-parallel" decodeInt
      some { matrix := m, fail_fast := ff, max_parallel := mp }
  | _ => none

def serializeStrategy (s : Strategy) : Yaml :=
  .map [("matrix", serializeOpt (fun v => v) s.matrix),
        ("fail-fast", serializeOpt Yaml.bool s.fail_fast),
        ("max-parallel", serializeOpt Yaml.int s.max_parallel)]

/-- `Step` (workflow.rs lines 113-156).  `uses: String` is the only
required field; `run_if` is renamed `if`; `with` and `env` carry
`#[serde(default)]`.  The source's `with` field is `with_args` here
(`with` is a Lean keyword). -/
structure Step where
  name : Option String
  id : Option String
  run_if : Option String
  uses : String
  run : Option String
  with_args : List (String × String)
  env : Env
  continue_on_error : Option Bool
  timeout_minutes : Option Int

def decodeStep : Yaml → Option Step
  | .map kvs => do
      let name ← optField kvs "name" decodeString
      let id ← optField kvs "id" decodeString
      let rif ← optField kvs "if" decodeString
      let uses ← reqField kvs "uses" decodeString
      let run ← optField kvs "run" decodeString
      let w ← defField kvs "with" decodeStringMap []
      let env ← defField kvs "env" decodeStringMap []
      let coe ← optField kvs "continue-on-error" decodeBool
      let tm ← optField kvs "timeout-minutes" decodeInt
      some { name := name, id := id, run_if := rif, uses := uses, run := run,
             with_args := w, env := env, continue_on_error := coe,
             timeout_minutes := tm }
  | _ => none

def serializeStep (s : Step) : Yaml :=
  .map [("name", serializeOpt Yaml.str s.name),
        ("id", serializeOpt Yaml.str s.id),
        ("if", serializeOpt Yaml.str s.run_if),
        ("uses", Yaml.str s.uses),
        ("run", serializeOpt Yaml.str s.run),
        ("with", serializeStringMap s.with_args),
        ("env", serializeStringMap s.env),
        ("continue-on-error", serializeOpt Yaml.bool s.continue_on_error),
        ("timeout-minutes", serializeOpt Yaml.int s.timeout_minutes)]

/-- `Container` (workflow.rs lines 159-171): a struct with the container
struct-level `#[serde(default)]`, so every missing field falls back to its
`Default` value (`name` to the empty string, the lists to empty). -/
structure Container where
  name : String
  credentials : Option (List (String × String))
  env : Option Env
  ports : List Int
  volumes : List Int
  options : List String
deriving DecidableEq

def decodeContainer : Yaml → Option Container
  | .map kvs => do
      let name ← defField kvs "name" decodeString ""
      let creds ← optField kvs "credentials" decodeStringMap
      let env ← optField kvs "env" decodeStringMap
      let ports ← defField kvs "ports" (decodeList decodeInt) []
      let volumes ← defField kvs "volumes" (decodeList decodeInt) []
      let options ← defField kvs "options" (decodeList decodeString) []
      some { name := name, credentials := creds, env := env, ports := ports,
             volumes := volumes, options := options }
  | _ => none

def serializeContainer (c : Container) : Yaml :=
  .map [("name", Yaml.str c.name),
        ("credentials", serializeOpt serializeStringMap c.credentials),
        ("env", serializeOpt serializeStringMap c.env),
        ("ports", Yaml.seq (c.ports.map Yaml.int)),
        ("volumes", Yaml.seq (c.volumes.map Yaml.int)),
        ("options", Yaml.seq (c.options.map Yaml.str))]

/-- `impl FromStr for Container` (workflow.rs lines 172-183): always
returns `Ok(Container { name: s, ..Default::default() })`; the error type
is the uninhabited `Void`, modelled as `Empty`. -/
def Container.from_str (s : String) : Except Empty Container :=
  .ok { name := s, credentials := none, env := none, ports := [],
        volumes := [], options := [] }

/-- `Service` (workflow.rs lines 188-194): `name` required, `ports` a
`#[serde(default)]` list of strings. -/
structure Service where
  name : String
  ports : List String
deriving DecidableEq

def decodeService : Yaml → Option Service
  | .map kvs => do
      let name ← reqField kvs "name" decodeString
      let ports ← defField kvs "ports" (decodeList decodeString) []
      some { name := name, ports := ports }
  | _ => none

def serializeService (s : Service) : Yaml :=
  .map [("name", Yaml.str s.name), ("ports", Yaml.seq (s.ports.map Yaml.str))]

/-- `Job` (workflow.rs lines 196-260).  `needs`, `env`, `steps` and
`services` carry `#[serde(default)]`; `runs_on` (key `runs-on`) is the
only required field; `run_if` is renamed `if`. -/
structure Job where
  name : Option String
  needs : List String
  runs_on : OneOrMany String
  environment : Option Environment
  outputs : Option (List (String × String))
  env : Env
  defaults : Option Defaults
  run_if : Option String
  steps : List Step
  timeout_minutes : Option Int
  strategy : Option Strategy
  continue_on_error : Option String
  container : Option Container
  services : List Service

def decodeJob : Yaml → Option Job
  | .map kvs => do
      let name ← optField kvs "name" decodeString
      let needs ← defField kvs "needs" (decodeList decodeString) []
      let ro ← reqField kvs "runs-on" (decodeOneOrMany decodeString)
      let environment ← optField kvs "environment" decodeEnvironment
      let outputs ← optField kvs "outputs" decodeStringMap
      let env ← defField kvs "env" decodeStringMap []
      let defaults ← optField kvs "defaults" decodeDefaults
      let rif ← optField kvs "if" decodeString
      let steps ← defField kvs "steps" (decodeList decodeStep) []
      let tm ← optField kvs "timeout-minutes" decodeInt
      let strategy ← optField kvs "strategy" decodeStrategy
      let coe ← optField kvs "continue-on-error" decodeString
      let container ← optField kvs "container" decodeContainer
      let services ← defField kvs "services" (decodeList decodeService) []
      some { name := name, needs := needs, runs_on := ro,
             environment := environment, outputs := outputs, env := env,
             defaults := defaults, run_if := rif, steps := steps,
             timeout_minutes := tm, strategy := strategy,
             continue_on_error := coe, container := container,
             services := services }
  | _ => none

def serializeJob (j : Job) : Yaml :=
  .map [("name", serializeOpt Yaml.str j.name),
        ("needs", Yaml.seq (j.needs.map Yaml.str)),
        ("runs-on", serializeOneOrMany Yaml.str j.runs_on),
        ("environment", serializeOpt serializeEnvironment j.environment),
        ("outputs", serializeOpt serializeStringMap j.outputs),
        ("env", serializeStringMap j.env),
        ("defaults", serializeOpt serializeDefaults j.defaults),
        ("if", serializeOpt Yaml.str j.run_if),
        ("steps", Yaml.seq (j.steps.map serializeStep)),
        ("timeout-minutes", serializeOpt Yaml.int j.timeout_minutes),
        ("strategy", serializeOpt serializeStrategy j.strategy),
        ("continue-on-error", serializeOpt Yaml.str j.continue_on_error),
        ("container", serializeOpt serializeContainer j.container),
        ("services", Yaml.seq (j.services.map serializeService))]

/-- `type JobMap = HashMap<String, Job>` (workflow.rs line 264), modelled
as an association list in document order. -/
abbrev JobMap := List (String × Job)

def decodeJobMap : Yaml → Option JobMap
  | .map kvs => decodeEntries decodeJob kvs
  | _ => none

def serializeJobMap (m : JobMap) : Yaml :=
  .map (m.map (fun kv => (kv.1, serializeJob kv.2)))

/-- `Workflow` (workflow.rs lines 269-296): `on` (a `Trigger`) and `jobs`
are required; `name`, `env` and `defaults` are `Option` fields.  The
source's `on` field is `on_` here (`on` is a Lean keyword). -/
structure Workflow where
  name : Option String
  on_ : Trigger
  env : Option Env
  defaults : Option Defaults
  jobs : JobMap

/-- `Workflow::parse_str` (workflow.rs lines 298-302) is exactly
`serde_yaml::from_str`: the derived deserialization of the model and
nothing else (no reference, cycle or value validation is performed). -/
def decodeWorkflow : Yaml → Option Workflow
  | .map kvs => do
      let name ← optField kvs "name" decodeString
      let trig ← reqField kvs "on" decodeTrigger
      let env ← optField kvs "env" decodeStringMap
      let defaults ← optField kvs "defaults" decodeDefaults
      let jobs ← reqField kvs "jobs" decodeJobMap
      some { name := name, on_ := trig, env := env, defaults := defaults,
             jobs := jobs }
  | _ => none

def serializeWorkflow (w : Workflow) : Yaml :=
  .map [("name", serializeOpt Yaml.str w.name),
        ("on", serializeTrigger w.on_),
        ("env", serializeOpt serializeStringMap w.env),
        ("defaults", serializeOpt serializeDefaults w.defaults),
        ("jobs", serializeJobMap w.jobs)]

namespace MainDraft

/-- `ContainerSpec` from the older draft in main.rs (lines 118-127). -/
structure ContainerSpec where
  name : String
  credentials : Option (List (String × String))
  env : Option (List (String × String))
  ports : List Int
  volumes : List Int
  options : List String
deriving DecidableEq

/-- `Default::default()` for main.rs `ContainerSpec`. -/
def ContainerSpec.default : ContainerSpec :=
  { name := "", credentials := none, env := none, ports := [],
    volumes := [], options := [] }

/-- `Container` from main.rs (lines 129-134): the shape-polymorphic
bare-image-name / detailed-spec choice. -/
inductive Container where
  | imageName (n : String)
  | detailedSpec (s : ContainerSpec)
deriving DecidableEq

/-- `Container::spec` (main.rs lines 136-146). -/
def Container.spec : Container → ContainerSpec
  | .imageName n => { ContainerSpec.default with name := n }
  | .detailedSpec s => s

end MainDraft

/-! Round-trip infrastructure: which values survive serialize-then-decode.

Two features of the derived code break the round trip in general:

* `Trigger`/`Event` are untagged and every `Event` payload is `Value`, so
  decoding always lands in `Events` with `Push` events (a sequence node
  becomes a `Many` of `Push`es, anything else a `One` `Push`);
* an `Option<Value>` field (`Strategy.matrix`) serialized from
  `Some(Value::Null)` reads back as `None`.

The predicates below carve out the values unaffected by either. -/

/-- Whether an event is the `Push` variant. -/
def Event.is_push : Event → Bool
  | .push _ => true
  | _ => false

/-- Triggers that survive serialize-then-decode: an `Events` trigger whose
events are all `Push` and, in the `One` shape, whose payload is not a
sequence.  A `Schedule` trigger never survives (it reads back as
`Events`). -/
def Trigger.roundtrippable : Trigger → Bool
  | .events (.one e) => e.is_push && !e.payload.isSeq
  | .events (.many es) => es.all Event.is_push
  | .schedule _ => false

/-- Strategies that survive serialize-then-decode: `matrix` is not an
explicit `Some(null)`. -/
def Strategy.roundtrippable (s : Strategy) : Bool :=
  match s.matrix with
  | some v => !v.isNull
  | none => true

/-- Jobs that survive serialize-then-decode. -/
def Job.roundtrippable (j : Job) : Bool :=
  match j.strategy with
  | some s => s.roundtrippable
  | none => true

/-- Workflows that survive serialize-then-decode. -/
def Workflow.roundtrippable (w : Workflow) : Bool :=
  w.on_.roundtrippable && w.jobs.all (fun kj => kj.2.roundtrippable)

theorem decodeOptField_rt (f : α → Yaml) (d : Yaml → Option α)
    (hd : ∀ x, d (f x) = some x) (hn : ∀ x, (f x).isNull = false)
    (v : Option α) :
    decodeOptField d (some (serializeOpt f v)) = some v := by
  cases v with
  | none => rfl
  | some x => simp [decodeOptField, serializeOpt, hn, hd]

theorem decodeEach_rt (f : α → Yaml) (d : Yaml → Option α)
    (hd : ∀ x, d (f x) = some x) :
    ∀ l : List α, decodeEach d (l.map f) = some l
  | [] => rfl
  | x :: xs => by
      simp [decodeEach, hd, decodeEach_rt f d hd xs]

theorem decodeList_rt (f : α → Yaml) (d : Yaml → Option α)
    (hd : ∀ x, d (f x) = some x) (l : List α) :
    decodeList d (Yaml.seq (l.map f)) = some l := by
  simp [decodeList, decodeEach_rt f d hd]

theorem decodeStringMap_rt : ∀ m : List (String × String),
    decodeStringMap (serializeStringMap m) = some m
  | [] => rfl
  | kv :: rest => by
      have ih := decodeStringMap_rt rest
      simp [decodeStringMap, serializeStringMap, decodeEntries, decodeString] at ih ⊢
      rw [ih]
      rfl

theorem decodeCronSchedule_rt (c : CronSchedule) :
    decodeCronSchedule (serializeCronSchedule c) = some c := rfl

theorem decodeDefaultSettings_rt (d : DefaultSettings) :
    decodeDefaultSettings (serializeDefaultSettings d) = some d := by
  simp [decodeDefaultSettings, serializeDefaultSettings, optField, Yaml.lookup,
        decodeOptField_rt Yaml.str decodeString (fun _ => rfl) (fun _ => rfl)]

theorem decodeDefaults_rt (d : Defaults) :
    decodeDefaults (serializeDefaults d) = some d := by
  simp [decodeDefaults, serializeDefaults, reqField, Yaml.lookup,
        decodeDefaultSettings_rt]

theorem decodeEnvironment_rt (e : Environment) :
    decodeEnvironment (serializeEnvironment e) = some e := by
  simp [decodeEnvironment, serializeEnvironment, optField, reqField, Yaml.lookup,
        decodeString, decodeOptField_rt Yaml.str decodeString (fun _ => rfl) (fun _ => rfl)]

theorem decodeStrategy_rt (s : Strategy) (h : s.roundtrippable = true) :
    decodeStrategy (serializeStrategy s) = some s := by
  have hm : decodeOptField decodeValue
      (some (serializeOpt (fun v => v) s.matrix)) = some s.matrix := by
    cases hmx : s.matrix with
    | none => rfl
    | some v =>
        have : v.isNull = false := by
          simpa [Strategy.roundtrippable, hmx] using h
        simp [decodeOptField, serializeOpt, this, decodeValue]
  simp [decodeStrategy, serializeStrategy, optField, Yaml.lookup, hm,
        decodeOptField_rt Yaml.bool decodeBool (fun _ => rfl) (fun _ => rfl),
        decodeOptField_rt Yaml.int decodeInt (fun _ => rfl) (fun _ => rfl)]

theorem decodeService_rt (s : Service) :
    decodeService (serializeService s) = some s := by
  simp [decodeService, serializeService, reqField, defField, Yaml.lookup,
        decodeString, decodeList_rt Yaml.str decodeString (fun _ => rfl)]

theorem decodeStep_rt (s : Step) :
    decodeStep (serializeStep s) = some s := by
  simp [decodeStep, serializeStep, optField, reqField, defField, Yaml.lookup,
        decodeString, decodeStringMap_rt,
        decodeOptField_rt Yaml.str decodeString (fun _ => rfl) (fun _ => rfl),
        decodeOptField_rt Yaml.bool decodeBool (fun _ => rfl) (fun _ => rfl),
        decodeOptField_rt Yaml.int decodeInt (fun _ => rfl) (fun _ => rfl)]

theorem decodeContainer_rt (c : Container) :
    decodeContainer (serializeContainer c) = some c := by
  simp [decodeContainer, serializeContainer, optField, defField, Yaml.lookup,
        decodeString, decodeStringMap_rt,
        decodeOptField_rt serializeStringMap decodeStringMap decodeStringMap_rt
          (fun _ => rfl),
        decodeList_rt Yaml.str decodeString (fun _ => rfl),
        decodeList_rt Yaml.int decodeInt (fun _ => rfl)]

theorem decodeOneOrMany_str_rt (r : OneOrMany String) :
    decodeOneOrMany decodeString (serializeOneOrMany Yaml.str r) = some r := by
  cases r with
  | one s => rfl
  | many l =>
      simp [serializeOneOrMany, decodeOneOrMany,
            decodeEach_rt Yaml.str decodeString (fun _ => rfl)]

/-- The first variant of the untagged `Event` always matches: every node
decodes as `Push`. -/
theorem decodeEvent_push (v : Yaml) : decodeEvent v = some (Event.push v) := rfl

theorem Event.push_payload (e : Event) (h : e.is_push = true) :
    Event.push e.payload = e := by
  cases e <;> simp_all [Event.is_push, Event.payload]

theorem decodeOneOrMany_not_seq (d : Yaml → Option α) (v : Yaml)
    (h : v.isSeq = false) :
    decodeOneOrMany d v = (d v).map OneOrMany.one := by
  cases v <;> simp_all [Yaml.isSeq, decodeOneOrMany]

theorem decodeEach_events : ∀ es : List Event, es.all Event.is_push = true →
    decodeEach decodeEvent (es.map serializeEvent) = some es
  | [], _ => rfl
  | e :: rest, h => by
      simp only [List.all_cons, Bool.and_eq_true] at h
      simp [decodeEach, decodeEvent_push, serializeEvent,
            decodeEach_events rest h.2, Event.push_payload e h.1]

theorem decodeTrigger_rt (t : Trigger) (h : t.roundtrippable = true) :
    decodeTrigger (serializeTrigger t) = some t := by
  match t with
  | .events (.one e) =>
      simp only [Trigger.roundtrippable, Bool.and_eq_true, Bool.not_eq_true'] at h
      simp [serializeTrigger, serializeOneOrMany, decodeTrigger,
            decodeOneOrMany_not_seq decodeEvent e.payload h.2,
            decodeEvent_push, serializeEvent, Event.push_payload e h.1]
  | .events (.many es) =>
      simp only [Trigger.roundtrippable] at h
      simp [serializeTrigger, serializeOneOrMany, decodeTrigger, decodeOneOrMany,
            decodeEach_events es h]
  | .schedule s => simp [Trigger.roundtrippable] at h

theorem decodeJob_rt (j : Job) (h : j.roundtrippable = true) :
    decodeJob (serializeJob j) = some j := by
  have hstrat : decodeOptField decodeStrategy
      (some (serializeOpt serializeStrategy j.strategy)) = some j.strategy := by
    cases hs : j.strategy with
    | none => rfl
    | some s =>
        have : s.roundtrippable = true := by
          simpa [Job.roundtrippable, hs] using h
        have hnn : (serializeStrategy s).isNull = false := rfl
        simp [decodeOptField, serializeOpt, hnn, decodeStrategy_rt s this]
  simp [decodeJob, serializeJob, optField, reqField, defField, Yaml.lookup,
        decodeString, decodeStringMap_rt, hstrat, decodeOneOrMany_str_rt,
        decodeOptField_rt Yaml.str decodeString (fun _ => rfl) (fun _ => rfl),
        decodeOptField_rt Yaml.int decodeInt (fun _ => rfl) (fun _ => rfl),
        decodeOptField_rt serializeStringMap decodeStringMap decodeStringMap_rt
          (fun _ => rfl),
        decodeOptField_rt serializeEnvironment decodeEnvironment
          decodeEnvironment_rt (fun _ => rfl),
        decodeOptField_rt serializeDefaults decodeDefaults decodeDefaults_rt
          (fun _ => rfl),
        decodeOptField_rt serializeContainer decodeContainer decodeContainer_rt
          (fun _ => rfl),
        decodeList_rt Yaml.str decodeString (fun _ => rfl),
        decodeList_rt serializeStep decodeStep decodeStep_rt,
        decodeList_rt serializeService decodeService decodeService_rt]

theorem decodeJobMap_rt : ∀ m : JobMap,
    m.all (fun kj => kj.2.roundtrippable) = true →
    decodeJobMap (serializeJobMap m) = some m
  | [], _ => rfl
  | kv :: rest, h => by
      simp only [List.all_cons, Bool.and_eq_true] at h
      have ih := decodeJobMap_rt rest h.2
      simp [decodeJobMap, serializeJobMap, decodeEntries,
            decodeJob_rt kv.2 h.1] at ih ⊢
      rw [ih]
      rfl

theorem decodeWorkflow_rt (w : Workflow) (h : w.roundtrippable = true) :
    decodeWorkflow (serializeWorkflow w) = some w := by
  simp only [Workflow.roundtrippable, Bool.and_eq_true] at h
  simp [decodeWorkflow, serializeWorkflow, optField, reqField, Yaml.lookup,
        decodeString, decodeStringMap_rt, decodeTrigger_rt w.on_ h.1,
        decodeJobMap_rt w.jobs h.2,
        decodeOptField_rt Yaml.str decodeString (fun _ => rfl) (fun _ => rfl),
        decodeOptField_rt serializeStringMap decodeStringMap decodeStringMap_rt
          (fun _ => rfl),
        decodeOptField_rt serializeDefaults decodeDefaults decodeDefaults_rt
          (fun _ => rfl)]

/-- Every node decodes as an `Event`, namely as `Push` of that node. -/
theorem decodeEach_push : ∀ xs : List Yaml,
    decodeEach decodeEvent xs = some (xs.map Event.push)
  | [] => rfl
  | x :: rest => by
      simp [decodeEach, decodeEvent_push, decodeEach_push rest]

/-! Concrete documents and values used by the claims. -/

/-- The document node of the trigger-disambiguation claim:
`{schedule: [{cron: "0 0 * * *"}]}`. -/
def onScheduleNode : Yaml :=
  .map [("schedule", .seq [.map [("cron", .str "0 0 * * *")]])]

/-- A job document node with the given runner and `needs` list. -/
def jobNode (runner : String) (needs : List String) : Yaml :=
  .map [("runs-on", .str runner), ("needs", .seq (needs.map Yaml.str))]

/-- The `Job` that `jobNode` decodes to: the listed `needs`, the single
runner, and every optional or defaulted field at its default. -/
def plainJob (runner : String) (needs : List String) : Job :=
  { name := none, needs := needs, runs_on := .one runner, environment := none,
    outputs := none, env := [], defaults := none, run_if := none, steps := [],
    timeout_minutes := none, strategy := none, continue_on_error := none,
    container := none, services := [] }

/-- A workflow document node with trigger `on: push` and the given jobs. -/
def wfDoc (jobs : List (String × Yaml)) : Yaml :=
  .map [("on", .str "push"), ("jobs", .map jobs)]

/-- The `Workflow` that `wfDoc` decodes to (the scalar `push` trigger lands
in `Events` as a `One` `Push`, per the untagged resolution). -/
def wfOf (jobs : JobMap) : Workflow :=
  { name := none, on_ := .events (.one (.push (.str "push"))), env := none,
    defaults := none, jobs := jobs }

/-- The bare-image-name `Container` for a given name: only `name`
populated, every other field at its declared default. -/
def bareContainer (s : String) : Container :=
  { name := s, credentials := none, env := none, ports := [], volumes := [],
    options := [] }

/-- C1: contrary to the claim, the node `{schedule: [{cron: "0 0 * * *"}]}`
decodes to the `Events` variant (as a `One` containing `Push` of the whole
mapping), not to `Schedule`; moreover every node whatsoever decodes to the
`Events` variant, so the `Schedule` variant of the untagged `Trigger` is
unreachable: `Events` is declared first and the untagged `Event`'s first
variant `Push(Value)` matches any node. -/
theorem c1_schedule_mapping_decodes_as_events :
    decodeTrigger onScheduleNode =
      some (Trigger.events (OneOrMany.one (Event.push onScheduleNode))) ∧
    ∀ v : Yaml, ∃ e : OneOrMany Event,
      decodeTrigger v = some (Trigger.events e) := by
  refine ⟨rfl, fun v => ?_⟩
  cases v with
  | seq xs =>
      exact ⟨.many (xs.map Event.push),
        by simp [decodeTrigger, decodeOneOrMany, decodeEach_push]⟩
  | str s => exact ⟨.one (.push (.str s)), rfl⟩
  | int n => exact ⟨.one (.push (.int n)), rfl⟩
  | bool b => exact ⟨.one (.push (.bool b)), rfl⟩
  | null => exact ⟨.one (.push .null), rfl⟩
  | map kvs => exact ⟨.one (.push (.map kvs)), rfl⟩

/-- C2: contrary to the claim, the cron string is not validated at all
(the source carries a `TODO: validate cron string`): `"*/5 * * * *"`,
`"5 minutes"` and the 4-field `"* * * *"` all decode successfully as
`CronSchedule` values. -/
theorem c2_cron_string_not_validated :
    decodeCronSchedule (.map [("cron", .str "*/5 * * * *")]) =
      some { cron := "*/5 * * * *" } ∧
    decodeCronSchedule (.map [("cron", .str "5 minutes")]) =
      some { cron := "5 minutes" } ∧
    decodeCronSchedule (.map [("cron", .str "* * * *")]) =
      some { cron := "* * * *" } :=
  ⟨rfl, rfl, rfl⟩

/-- C3 counterexample: a document whose only job lists `"ghost"` in
`needs` while no job `ghost` exists decodes to a `Workflow` value, not to
any error. -/
theorem c3_counterexample_ghost_needs_decodes :
    decodeWorkflow (wfDoc [("a", jobNode "ubuntu-latest" ["ghost"])]) =
      some (wfOf [("a", plainJob "ubuntu-latest" ["ghost"])]) := rfl

/-- C3 amended: `Workflow::parse_str` performs no reference checking; for
every `needs` list (dangling or not), the document decodes successfully to
a `Workflow` retaining that list verbatim. -/
theorem c3_amended_needs_never_checked (ns : List String) :
    decodeWorkflow (wfDoc [("a", jobNode "ubuntu-latest" ns)]) =
      some (wfOf [("a", plainJob "ubuntu-latest" ns)]) := by
  simp [wfDoc, jobNode, wfOf, plainJob, decodeWorkflow, decodeJobMap,
        decodeEntries, decodeJob, decodeTrigger, decodeOneOrMany, decodeEvent,
        decodeValue, decodeList, decodeString, optField, reqField, defField,
        Yaml.lookup, decodeOptField, decodeEach_rt Yaml.str decodeString
          (fun _ => rfl)]

/-- C4 counterexample: the workflow with jobs `a` needing `b` and `b`
needing `a` (a `needs` cycle) decodes to a `Workflow` value, not to any
error. -/
theorem c4_counterexample_cycle_decodes :
    decodeWorkflow (wfDoc [("a", jobNode "u" ["b"]), ("b", jobNode "u" ["a"])]) =
      some (wfOf [("a", plainJob "u" ["b"]), ("b", plainJob "u" ["a"])]) := rfl

/-- C4 amended: `Workflow::parse_str` performs no cycle detection: both the
cyclic workflow (`a` needs `b`, `b` needs `a`) and the acyclic one (`a`
needs `b`, `b` needs `c`, `c` with no needs) decode successfully, the
cyclic `needs` lists kept verbatim. -/
theorem c4_amended_no_cycle_check :
    decodeWorkflow (wfDoc [("a", jobNode "u" ["b"]), ("b", jobNode "u" ["a"])]) =
      some (wfOf [("a", plainJob "u" ["b"]), ("b", plainJob "u" ["a"])]) ∧
    decodeWorkflow (wfDoc [("a", jobNode "u" ["b"]), ("b", jobNode "u" ["c"]),
                           ("c", jobNode "u" [])]) =
      some (wfOf [("a", plainJob "u" ["b"]), ("b", plainJob "u" ["c"]),
                  ("c", plainJob "u" [])]) :=
  ⟨rfl, rfl⟩

/-- C5: decoding a bare container image name string (the `FromStr`
implementation of workflow.rs) and decoding a detailed container object
whose `name` is that string and whose other fields are at their declared
defaults produce the identical `Container`; in the main.rs draft,
`Container::spec` likewise maps the bare `ImageName` shape and the
equivalent all-default `DetailedSpec` shape to the same `ContainerSpec`. -/
theorem c5_container_shape_equivalence (s : String) :
    Container.from_str s = Except.ok (bareContainer s) ∧
    decodeContainer (.map [("name", .str s)]) = some (bareContainer s) ∧
    (MainDraft.Container.imageName s).spec =
      (MainDraft.Container.detailedSpec
        { MainDraft.ContainerSpec.default with name := s }).spec :=
  ⟨rfl, rfl, rfl⟩

/-- C6: normalizing the scalar form `x` and the one-element list `[x]`
yield the identical one-element sequence, and normalizing any list of
scalars yields its elements in document order (so `runs_on:
"ubuntu-latest"` and `runs_on: ["ubuntu-latest"]` produce identical
sequences). -/
theorem c6_one_or_many_equivalence (x : String) (l : List String) :
    (decodeOneOrMany decodeString (Yaml.str x)).map OneOrMany.into_vec =
      some [x] ∧
    (decodeOneOrMany decodeString (Yaml.seq [Yaml.str x])).map
      OneOrMany.into_vec = some [x] ∧
    (decodeOneOrMany decodeString (Yaml.seq (l.map Yaml.str))).map
      OneOrMany.into_vec = some l := by
  refine ⟨rfl, rfl, ?_⟩
  simp [decodeOneOrMany, decodeEach_rt Yaml.str decodeString (fun _ => rfl),
        OneOrMany.into_vec]

/-- C9: `Container::from_str` is total and deterministic: its error type
is the uninhabited `Void` (`Empty`), and for every string it returns `Ok`
of the container with that name and every other field at its `Default`. -/
theorem c9_from_str_total (s : String) :
    Container.from_str s = Except.ok (bareContainer s) := rfl

/-- C10: a job mapping that omits `needs`, `steps`, `services` and `env`
(keeping only the required `runs-on`) decodes successfully, with empty
`needs`, `steps` and `services` and an empty `env` mapping. -/
theorem c10_job_optional_fields_default (r : String) :
    decodeJob (.map [("runs-on", .str r)]) = some (plainJob r []) := rfl

/-- C8: every successfully decoded `Step` got its `uses` from the mapping:
a step mapping without a `uses` key fails to decode (whatever else, such
as a `run` command, it contains), because `uses: String` is the one
required field of `Step`. -/
theorem c8_step_requires_uses (kvs : List (String × Yaml))
    (h : Yaml.lookup kvs "uses" = none) :
    decodeStep (.map kvs) = none := by
  simp [decodeStep, reqField, h]

/-- C8 witness: the mapping `{run: "echo hi"}` has no `uses` key and fails
to decode as a `Step`. -/
theorem c8_step_requires_uses_witness :
    Yaml.lookup [("run", Yaml.str "echo hi")] "uses" = none ∧
    decodeStep (.map [("run", Yaml.str "echo hi")]) = none :=
  ⟨rfl, c8_step_requires_uses [("run", Yaml.str "echo hi")] rfl⟩

/-- The canonical workflow with a `Schedule` trigger that refutes the
round-trip claim. -/
def scheduleWorkflow : Workflow :=
  { name := none, on_ := .schedule [{ cron := "0 0 * * *" }], env := none,
    defaults := none, jobs := [] }

/-- What `scheduleWorkflow` becomes after serialize-then-decode: the
schedule reads back as an `Events` trigger of `Push` events. -/
def scheduleWorkflowReread : Workflow :=
  { name := none,
    on_ := .events (.many [.push (.map [("cron", .str "0 0 * * *")])]),
    env := none, defaults := none, jobs := [] }

/-- C7 counterexample: serializing the canonical workflow whose trigger is
`Schedule [{cron: "0 0 * * *"}]` and decoding the result yields a
different workflow — the trigger comes back as the `Events` variant — so
the round trip fails on a constructible `Workflow` value. -/
theorem c7_counterexample_schedule_breaks_roundtrip :
    decodeWorkflow (serializeWorkflow scheduleWorkflow) =
      some scheduleWorkflowReread ∧
    scheduleWorkflowReread ≠ scheduleWorkflow :=
  ⟨rfl, fun h => Trigger.noConfusion (congrArg Workflow.on_ h)⟩

/-- A full-featured workflow inside the round-trippable class, used as the
witness input of the amended round-trip claim. -/
def witnessStep : Step :=
  { name := some "checkout", id := some "co", run_if := some "always()",
    uses := "actions/checkout@v4", run := some "make test",
    with_args := [("ref", "main")], env := [("CI", "true")],
    continue_on_error := some false, timeout_minutes := some 10 }

/-- The witness job: every field populated. -/
def witnessJob : Job :=
  { name := some "Build", needs := ["lint"],
    runs_on := .many ["ubuntu-latest", "self-hosted"],
    environment := some { name := "prod", url := some "https://example.test" },
    outputs := some [("artifact", "out")], env := [("K", "V")],
    defaults := some { run := { shell := some "bash",
                                working_directory := some "/src" } },
    run_if := some "ok", steps := [witnessStep], timeout_minutes := some 30,
    strategy := some { matrix := some (.map [("os", .seq [.str "linux"])]),
                       fail_fast := some true, max_parallel := some 2 },
    continue_on_error := some "false",
    container := some { name := "img", credentials := some [("user", "u")],
                        env := some [("E", "1")], ports := [80], volumes := [1],
                        options := ["--rm"] },
    services := [{ name := "redis", ports := ["6379:6379"] }] }

/-- The witness workflow: an `Events` trigger of `Push` events and one
fully populated job. -/
def witnessWorkflow : Workflow :=
  { name := some "ci",
    on_ := .events (.many [.push (.map [("branches", .seq [.str "main"])])]),
    env := some [("G", "1")],
    defaults := some { run := { shell := some "sh", working_directory := none } },
    jobs := [("build", witnessJob)] }

/-- C7 amended: serializing a canonical `Workflow` and decoding the result
returns it unchanged for every workflow in the round-trippable class: the
trigger is the `Events` variant holding only `Push` events (with a
non-sequence payload in the `One` shape) and no job strategy carries an
explicit `Some(null)` matrix.  Outside that class the round trip fails: a
`Schedule` trigger reads back as `Events` (see the counterexample), a
non-`Push` event reads back as `Push`, and a `Some(null)` matrix reads
back as `None`. -/
theorem c7_amended_roundtrip (w : Workflow) (h : w.roundtrippable = true) :
    decodeWorkflow (serializeWorkflow w) = some w :=
  decodeWorkflow_rt w h

/-- C7 witness: the amended round trip at a concrete fully-featured
workflow. -/
theorem c7_amended_roundtrip_witness :
    witnessWorkflow.roundtrippable = true ∧
    decodeWorkflow (serializeWorkflow witnessWorkflow) = some witnessWorkflow :=
  ⟨by decide, c7_amended_roundtrip witnessWorkflow (by decide)⟩

end WorkflowLinter
